import Mathlib

/- Verification of the sentence-pair classification components of the
   repository: the dataset adapter in
   fairseq/data/sentence_pair_classification_dataset.py and the classifier
   models in fairseq/models/sentence_pair_classifier.py, embedded shallowly.
   Token sequences are lists of naturals, numpy size arrays are functions on
   indices, and real-valued tensors are rank-indexed structures of rational
   valued functions with explicit dimension data. -/

namespace SentencePairClassification

/-- A per-example record as produced by the dataset getitem method: an id,
two token-id sequences and an integer label target. -/
structure Sample where
  id : ℕ
  sentence1 : List ℕ
  sentence2 : List ℕ
  target : ℤ
deriving DecidableEq, Repr

/-- Elementwise broadcast of adding a scalar to a one-dimensional tensor: the
Python expression sentence1 + len(sentence2) inside collate (dataset source
line 21) adds the scalar to every entry and keeps the length unchanged. -/
def tensorAddScalar (t : List ℕ) (k : ℕ) : List ℕ := t.map (fun x => x + k)

/-- The ntokens entry computed by collate (dataset source line 21): for each
sample the source takes len(sentence1 + len(sentence2)), the length of the
broadcast sum, and adds these numbers up over the samples. -/
def ntokensOfSamples (samples : List Sample) : ℕ :=
  (samples.map (fun s => (tensorAddScalar s.sentence1 s.sentence2.length).length)).sum

/-- The token count the specification prescribes for a batch: the sum over
the examples of len(sentence1) + len(sentence2). -/
def ntokensSpec (samples : List Sample) : ℕ :=
  (samples.map (fun s => s.sentence1.length + s.sentence2.length)).sum

/-- Modelled from the spec: the helper data_utils.collate_tokens is not among
the sources under verification (only its caller is). Per the specification,
each field is independently right-padded to the maximum raw length within the
batch for that field, using the designated pad value, with an end-of-sequence
marker value appended. -/
def collate_tokens (values : List (List ℕ)) (pad_idx eos_idx : ℕ) : List (List ℕ) :=
  let maxLen := (values.map List.length).foldr max 0
  values.map (fun v => v ++ [eos_idx] ++ List.replicate (maxLen - v.length) pad_idx)

/-- A collated batch: the dictionary returned by collate on non-empty input
(dataset source lines 19-32). -/
structure Batch where
  ids : List ℕ
  ntokens : ℕ
  sentence1 : List (List ℕ)
  sentence2 : List (List ℕ)
  targets : List (List ℤ)
  nsentences : ℕ
deriving DecidableEq, Repr

/-- collate (dataset source lines 15-32): an empty sample list yields the
empty dictionary, modelled as none; otherwise the batch dictionary is built
field by field as in the source. -/
def collate (samples : List Sample) (pad_idx eos_idx : ℕ) : Option Batch :=
  if samples.length = 0 then none
  else some
    { ids := samples.map Sample.id
      ntokens := ntokensOfSamples samples
      sentence1 := collate_tokens (samples.map Sample.sentence1) pad_idx eos_idx
      sentence2 := collate_tokens (samples.map Sample.sentence2) pad_idx eos_idx
      targets := samples.map (fun s => [s.target])
      nsentences := (samples.headD ⟨0, [], [], 0⟩).sentence1.length }

/-- The shuffle flag is fixed to false by the dataset constructor (source
line 52). -/
def datasetShuffle : Bool := false

/-- num_tokens (dataset source lines 79-82): the max of the two size arrays
at the index. -/
def num_tokens (sizes1 sizes2 : ℕ → ℕ) (index : ℕ) : ℕ :=
  max (sizes1 index) (sizes2 index)

/-- size (dataset source lines 84-87): the max of the two size arrays at the
index. -/
def size (sizes1 sizes2 : ℕ → ℕ) (index : ℕ) : ℕ :=
  max (sizes1 index) (sizes2 index)

/-- Stable argsort composed with fancy indexing: the numpy expression
indices[argsort(key[indices], kind mergesort)] reorders the list indices
stably by the key, keeping the relative order of entries whose keys tie. -/
def stableSortByKey (key : ℕ → ℕ) (l : List ℕ) : List ℕ :=
  l.mergeSort (fun i j => decide (key i ≤ key j))

/-- ordered_indices (dataset source lines 89-97): start from a random
permutation when shuffling is enabled, else from arange; stably argsort by
sizes1, then stably argsort the result by sizes2. The random permutation
source is passed explicitly so that the shuffle-disabled path is visibly
independent of it. -/
def ordered_indices (shuffle : Bool) (randPerm : List ℕ)
    (sizes1 sizes2 : ℕ → ℕ) (n : ℕ) : List ℕ :=
  let indices := if shuffle then randPerm else List.range n
  let indices1 := stableSortByKey sizes1 indices
  stableSortByKey sizes2 indices1

/-- get_dummy_batch (dataset source lines 66-77). The max_positions argument
is either a number or some non-numeric object, for which the isinstance test
fails and no clipping happens; vocab.dummy_sentence is an external dictionary
facility passed in as a function. -/
def get_dummy_batch (dummy_sentence : ℕ → List ℕ) (pad_idx eos_idx : ℕ)
    (numTokens : ℕ) (max_positions : ℕ ⊕ Unit) (tgt_len : ℕ) : Option Batch :=
  let tgtLen := match max_positions with
    | Sum.inl m => min tgt_len m
    | Sum.inr _ => tgt_len
  let bsz := numTokens / tgtLen
  let sent1 := dummy_sentence (tgtLen + 2)
  let sent2 := dummy_sentence (tgtLen + 2)
  collate ((List.range bsz).map (fun i => ⟨i, sent1, sent2, 0⟩)) pad_idx eos_idx

/-- The number of examples held by a collate result: zero for the empty
dictionary, else the length of the ids list. -/
def batchNumExamples : Option Batch → ℕ
  | none => 0
  | some b => b.ids.length

/-- A collate result holds exactly as many examples as samples were passed
in. -/
theorem batchNumExamples_collate (samples : List Sample) (pad_idx eos_idx : ℕ) :
    batchNumExamples (collate samples pad_idx eos_idx) = samples.length := by
  by_cases h : samples.length = 0
  · simp [collate, h, batchNumExamples]
  · simp [collate, h, batchNumExamples]

/-- C1: the claim that ntokens is the sum of len(sentence1) + len(sentence2)
fails on the code. At the single example with sentence1 = [5, 6] and
sentence2 = [7], collate returns ntokens = 2, the sum of the sentence1
lengths alone, not 3: the source computes len(sentence1 + len(sentence2)),
a broadcast add that keeps the length of sentence1. -/
theorem collate_ntokens_at_failing_input :
    (collate [⟨0, [5, 6], [7], 0⟩] 0 1).map Batch.ntokens = some 2 ∧
    ntokensSpec [⟨0, [5, 6], [7], 0⟩] = 3 ∧
    ¬ (collate [⟨0, [5, 6], [7], 0⟩] 0 1).map Batch.ntokens
        = some (ntokensSpec [⟨0, [5, 6], [7], 0⟩]) := by
  refine ⟨rfl, rfl, ?_⟩
  decide

/-- C7: with the shuffle flag fixed to false by the constructor,
ordered_indices always returns a permutation of the range of valid indices,
and the result does not depend on the random permutation source: two calls on
identical size arrays return exactly the same index sequence. -/
theorem ordered_indices_perm_deterministic (sizes1 sizes2 : ℕ → ℕ) (n : ℕ)
    (randPermA randPermB : List ℕ) :
    (ordered_indices datasetShuffle randPermA sizes1 sizes2 n).Perm (List.range n) ∧
    ordered_indices datasetShuffle randPermA sizes1 sizes2 n
      = ordered_indices datasetShuffle randPermB sizes1 sizes2 n := by
  refine ⟨?_, rfl⟩
  exact (List.mergeSort_perm _ _).trans (List.mergeSort_perm _ _)

/-- C8: when max_positions is numeric, the number of examples synthesized by
get_dummy_batch equals the token budget divided by min(tgt_len,
max_positions); the hypothesis keeps the effective target length positive,
where the Python division is defined. -/
theorem get_dummy_batch_size (dummy_sentence : ℕ → List ℕ) (pad_idx eos_idx : ℕ)
    (numTokens m tgt_len : ℕ) (hpos : 0 < min tgt_len m) :
    batchNumExamples
        (get_dummy_batch dummy_sentence pad_idx eos_idx numTokens (Sum.inl m) tgt_len)
      = numTokens / min tgt_len m := by
  simp [get_dummy_batch, batchNumExamples_collate]

/-- C8 witness: a dummy batch with budget 10 and positional limit 4 holds
10 / 4 = 2 examples. -/
theorem get_dummy_batch_size_witness :
    0 < min 128 4 ∧
    batchNumExamples
        (get_dummy_batch (fun k => List.replicate k 7) 0 1 10 (Sum.inl 4) 128)
      = 10 / min 128 4 :=
  ⟨by decide, get_dummy_batch_size (fun k => List.replicate k 7) 0 1 10 4 128 (by decide)⟩

/-- The key comparison used by a stable argsort is transitive. -/
theorem keyLE_trans (key : ℕ → ℕ) (a b c : ℕ)
    (hab : decide (key a ≤ key b) = true) (hbc : decide (key b ≤ key c) = true) :
    decide (key a ≤ key c) = true := by
  simp only [decide_eq_true_eq] at hab hbc ⊢
  omega

/-- The key comparison used by a stable argsort is total. -/
theorem keyLE_total (key : ℕ → ℕ) (a b : ℕ) :
    (decide (key a ≤ key b) || decide (key b ≤ key a)) = true := by
  simp [Nat.le_total]

/-- Any strictly increasing pair below n forms a sublist of the arange
list. -/
theorem pair_sublist_range {i j n : ℕ} (hij : i < j) (hjn : j < n) :
    List.Sublist [i, j] (List.range n) := by
  have h1 : List.Sublist [i] (List.range' 0 j) := by
    rw [← List.range_eq_range']
    exact List.singleton_sublist.mpr (List.mem_range.mpr hij)
  have h2 : List.Sublist [j] (List.range' (0 + j) (n - j)) :=
    List.singleton_sublist.mpr (List.mem_range'_1.mpr ⟨by omega, by omega⟩)
  have happ : List.Sublist ([i] ++ [j]) (List.range' 0 j ++ List.range' (0 + j) (n - j)) :=
    List.Sublist.append h1 h2
  rw [List.range'_append_1, show n - j + j = n by omega, ← List.range_eq_range'] at happ
  exact happ

/-- C6: with shuffling disabled, ordered_indices is the stable two-key sort
the claim describes: the first pass sorts arange by sizes1 with ties kept in
index order; the second pass stably re-sorts by sizes2, so the result is
non-decreasing in sizes2 and any pair ordered by the first pass whose sizes2
values tie keeps its relative order in the result. -/
theorem ordered_indices_two_key_stable_sort (sizes1 sizes2 : ℕ → ℕ) (n : ℕ) :
    (stableSortByKey sizes1 (List.range n)).Pairwise (fun i j => sizes1 i ≤ sizes1 j) ∧
    (∀ i j, i < j → j < n → sizes1 i = sizes1 j →
      List.Sublist [i, j] (stableSortByKey sizes1 (List.range n))) ∧
    (ordered_indices datasetShuffle [] sizes1 sizes2 n).Pairwise
      (fun i j => sizes2 i ≤ sizes2 j) ∧
    (∀ i j, List.Sublist [i, j] (stableSortByKey sizes1 (List.range n)) → sizes2 i = sizes2 j →
      List.Sublist [i, j] (ordered_indices datasetShuffle [] sizes1 sizes2 n)) := by
  refine ⟨?_, ?_, ?_, ?_⟩
  · have h := List.sorted_mergeSort (keyLE_trans sizes1) (keyLE_total sizes1) (List.range n)
    exact h.imp (fun hab => by simpa using hab)
  · intro i j hij hjn heq
    exact List.pair_sublist_mergeSort (keyLE_trans sizes1) (keyLE_total sizes1)
      (by simp [heq.le]) (pair_sublist_range hij hjn)
  · have h := List.sorted_mergeSort (keyLE_trans sizes2) (keyLE_total sizes2)
      (stableSortByKey sizes1 (List.range n))
    exact h.imp (fun hab => by simpa using hab)
  · intro i j hsub heq
    exact List.pair_sublist_mergeSort (keyLE_trans sizes2) (keyLE_total sizes2)
      (by simp [heq.le]) hsub

/-- C6 witness: with constant size arrays on two indices, the pair 0, 1 is
kept in order by the first sorting pass and then by the second. -/
theorem ordered_indices_two_key_stable_sort_witness :
    List.Sublist [0, 1] (ordered_indices datasetShuffle [] (fun _ => 0) (fun _ => 0) 2) :=
  (ordered_indices_two_key_stable_sort (fun _ => 0) (fun _ => 0) 2).2.2.2 0 1
    ((ordered_indices_two_key_stable_sort (fun _ => 0) (fun _ => 0) 2).2.1 0 1
      (by decide) (by decide) rfl) rfl

/-- C9: for every index, size and num_tokens agree, and both return the max
of sizes1 and sizes2 at that index. -/
theorem size_eq_num_tokens (sizes1 sizes2 : ℕ → ℕ) (index : ℕ) :
    size sizes1 sizes2 index = num_tokens sizes1 sizes2 index ∧
    num_tokens sizes1 sizes2 index = max (sizes1 index) (sizes2 index) :=
  ⟨rfl, rfl⟩

/-- Python names that the model sources read dynamically: the attribute names
looked up on the args namespace object, and the variable name that the
fine-tuning forward pass references. -/
inductive PyName where
  | self
  | sentence1
  | sentence2
  | src_tokens
  | num_labels
  | model_dim
  | embedding_dropout
  | dropout
  | last_dropout
deriving DecidableEq, Repr

/-- The Python errors the modelled code can raise. -/
inductive PyError where
  | nameError (n : PyName)
  | attributeError (n : PyName)
deriving DecidableEq, Repr

/-- Evaluating a bare name in a Python scope: ok when the name is bound,
NameError otherwise. -/
def lookupName (bound : List PyName) (n : PyName) : Except PyError Unit :=
  if n ∈ bound then Except.ok () else Except.error (PyError.nameError n)

/-- The forward method of FinetuningSentencePairClassifier (model source
lines 202-214). Its local scope binds only self and the two parameters; the
first statement evaluates the name src_tokens, which is bound neither in the
function scope nor at module level, before any other work. The remaining
statements of the body, whatever tensor computation they would perform, are
abstracted as the rest argument; the do-chain shows they are unreachable. -/
def finetuningForward (rest : List ℕ → List ℕ → Except PyError (List ℚ))
    (sentence1 sentence2 : List ℕ) : Except PyError (List ℚ) := do
  let boundNames := [PyName.self, PyName.sentence1, PyName.sentence2]
  let _ ← lookupName boundNames PyName.src_tokens
  rest sentence1 sentence2

/-- C2: for every pair of inputs, and whatever the rest of the body would
compute, the fine-tuning forward pass fails with a name-resolution error on
src_tokens before producing any output. -/
theorem finetuningForward_raises_nameError
    (rest : List ℕ → List ℕ → Except PyError (List ℚ))
    (sentence1 sentence2 : List ℕ) :
    finetuningForward rest sentence1 sentence2
      = Except.error (PyError.nameError PyName.src_tokens) := rfl

/-- The args namespace object as the two registered architectures and the
classifier constructor read it: each hyper-parameter attribute is present or
absent. -/
structure Args where
  model_dim : Option ℕ
  embedding_dropout : Option ℚ
  dropout : Option ℚ
  last_dropout : Option ℚ
  num_labels : Option ℕ
  elmo_path : Option Unit
deriving DecidableEq, Repr

/-- The getattr(args, name, default) idiom: keep the attribute when present,
else install the default. -/
def getattrD (o : Option α) (default : α) : α := o.getD default

/-- The first base_architecture definition (model source lines 241-246),
registered for sentence_pair_classifier: defaults model_dim 2048,
embedding_dropout 0.5, dropout 0.3, last_dropout 0.3. -/
def base_architecture_sentence_pair (a : Args) : Args :=
  { a with
    model_dim := some (getattrD a.model_dim 2048)
    embedding_dropout := some (getattrD a.embedding_dropout (1 / 2))
    dropout := some (getattrD a.dropout (3 / 10))
    last_dropout := some (getattrD a.last_dropout (3 / 10)) }

/-- The second base_architecture definition (model source lines 249-252),
registered for finetuning_sentence_pair_classifier: defaults model_dim 1024
and last_dropout 0.3 only. -/
def base_architecture_finetuning (a : Args) : Args :=
  { a with
    model_dim := some (getattrD a.model_dim 1024)
    last_dropout := some (getattrD a.last_dropout (3 / 10)) }

/-- Both function definitions bind the same module-level name
base_architecture; the second definition rebinds it, so every call site in
the module resolves to the fine-tuning variant. -/
def base_architecture : Args → Args := base_architecture_finetuning

/-- Reading an attribute off args without a default: AttributeError when it
is absent. -/
def getattrOrRaise (o : Option α) (n : PyName) : Except PyError α :=
  match o with
  | some v => Except.ok v
  | none => Except.error (PyError.attributeError n)

/-- The attribute reads performed by the SentencePairClassifier constructor
(model source lines 63-78), in source order: num_labels and model_dim for the
class queries, embedding_dropout, model_dim again for the attention and
projection, last_dropout, and dropout for the attention layers. The result is
the tuple of hyper-parameters read, or the first AttributeError raised. -/
def sentencePairClassifierInit (a : Args) : Except PyError (ℕ × ℕ × ℚ × ℚ × ℚ) := do
  let nl ← getattrOrRaise a.num_labels PyName.num_labels
  let md ← getattrOrRaise a.model_dim PyName.model_dim
  let ed ← getattrOrRaise a.embedding_dropout PyName.embedding_dropout
  let ld ← getattrOrRaise a.last_dropout PyName.last_dropout
  let dr ← getattrOrRaise a.dropout PyName.dropout
  Except.ok (nl, md, ed, ld, dr)

/-- build_model of SentencePairClassifier (model source lines 139-182): it
first applies the module-level base_architecture to args, then builds the
embedding (the elmo branch reads args.embedding_dropout for its final
dropout; the plain branch reads args.model_dim), then constructs the
classifier. -/
def sentencePairClassifierBuildModel (a : Args) : Except PyError (ℕ × ℕ × ℚ × ℚ × ℚ) := do
  let a := base_architecture a
  match a.elmo_path with
  | some _ =>
    let _ ← getattrOrRaise a.embedding_dropout PyName.embedding_dropout
    sentencePairClassifierInit a
  | none =>
    let _ ← getattrOrRaise a.model_dim PyName.model_dim
    sentencePairClassifierInit a

/-- C10: because the second base_architecture definition shadows the first,
build_model of SentencePairClassifier applies the fine-tuning defaults: with
model_dim unset it sets model_dim to 1024 rather than 2048, leaves
embedding_dropout and dropout unset, and the subsequent construction of
SentencePairClassifier fails with an AttributeError on embedding_dropout. -/
theorem build_model_uses_shadowing_defaults (a : Args)
    (hmd : a.model_dim = none) (hed : a.embedding_dropout = none)
    (hdr : a.dropout = none) (hnl : a.num_labels.isSome) :
    (base_architecture a).model_dim = some 1024 ∧
    ¬ (base_architecture a).model_dim = some 2048 ∧
    (base_architecture a).embedding_dropout = none ∧
    (base_architecture a).dropout = none ∧
    sentencePairClassifierBuildModel a
      = Except.error (PyError.attributeError PyName.embedding_dropout) := by
  obtain ⟨nl, hnl⟩ := Option.isSome_iff_exists.mp hnl
  refine ⟨?_, ?_, ?_, ?_, ?_⟩
  · simp [base_architecture, base_architecture_finetuning, hmd, getattrD]
  · simp [base_architecture, base_architecture_finetuning, hmd, getattrD]
  · simp [base_architecture, base_architecture_finetuning, hed]
  · simp [base_architecture, base_architecture_finetuning, hdr]
  · cases helmo : a.elmo_path with
    | some u =>
      simp [sentencePairClassifierBuildModel, base_architecture,
        base_architecture_finetuning, helmo, hed, getattrOrRaise, Bind.bind, Except.bind]
    | none =>
      simp [sentencePairClassifierBuildModel, sentencePairClassifierInit,
        base_architecture, base_architecture_finetuning, helmo, hmd, hed, hnl,
        getattrD, getattrOrRaise, Bind.bind, Except.bind]

/-- C10 witness: on an args object carrying only num_labels, the shadowed
defaults apply and construction fails on embedding_dropout. -/
theorem build_model_uses_shadowing_defaults_witness :
    (base_architecture ⟨none, none, none, none, some 3, none⟩).model_dim = some 1024 ∧
    ¬ (base_architecture ⟨none, none, none, none, some 3, none⟩).model_dim = some 2048 ∧
    (base_architecture ⟨none, none, none, none, some 3, none⟩).embedding_dropout = none ∧
    (base_architecture ⟨none, none, none, none, some 3, none⟩).dropout = none ∧
    sentencePairClassifierBuildModel ⟨none, none, none, none, some 3, none⟩
      = Except.error (PyError.attributeError PyName.embedding_dropout) :=
  build_model_uses_shadowing_defaults ⟨none, none, none, none, some 3, none⟩
    rfl rfl rfl (by decide)

/-- A batch of token ids as a two-dimensional integer tensor with explicit
dimensions, batch size by token length, and entries given as a function. -/
structure TokMat where
  bsz : ℕ
  len : ℕ
  tok : ℕ → ℕ → ℕ

/-- A rank-3 real valued tensor: explicit dimensions, entries a rational
valued function. -/
structure T3 where
  d0 : ℕ
  d1 : ℕ
  d2 : ℕ
  val : ℕ → ℕ → ℕ → ℚ

/-- A rank-2 real valued tensor. -/
structure T2 where
  d0 : ℕ
  d1 : ℕ
  val : ℕ → ℕ → ℚ

/-- A boolean key-padding mask with explicit dimensions, batch size by key
length; true marks a masked position. -/
structure Mask where
  bsz : ℕ
  len : ℕ
  m : ℕ → ℕ → Bool

/-- The test premise_pad_mask.any() of the classifier forward pass (model
source lines 92 and 98): whether any position of the batch holds the padding
index. -/
def anyPad (s : TokMat) (padIdx : ℕ) : Bool :=
  (List.range s.bsz).any (fun b => (List.range s.len).any (fun t => s.tok b t == padIdx))

/-- The per-field key-padding mask of the classifier forward pass (model
source lines 90-102): compare each token with the embedding padding index;
when no position of the whole batch matches, the mask is absent, otherwise a
column of new zeros is concatenated in front of the comparison matrix. -/
def fieldPadMask (s : TokMat) (padIdx : ℕ) : Option Mask :=
  if anyPad s padIdx then
    some ⟨s.bsz, s.len + 1, fun b t => if t = 0 then false else s.tok b (t - 1) == padIdx⟩
  else none

/-- The anyPad test holds exactly when some in-range position carries the
padding index. -/
theorem anyPad_eq_true_iff (s : TokMat) (padIdx : ℕ) :
    anyPad s padIdx = true ↔ ∃ b < s.bsz, ∃ t < s.len, s.tok b t = padIdx := by
  simp [anyPad, List.any_eq_true, List.mem_range]

/-- A field with no padding anywhere in the batch gets the absent mask. -/
theorem fieldPadMask_eq_none (s : TokMat) (padIdx : ℕ)
    (h : ∀ b < s.bsz, ∀ t < s.len, s.tok b t ≠ padIdx) :
    fieldPadMask s padIdx = none := by
  have hfalse : ¬ anyPad s padIdx = true := by
    rw [anyPad_eq_true_iff]
    rintro ⟨b, hb, t, ht, he⟩
    exact h b hb t ht he
  simp [fieldPadMask, hfalse]

/-- C4: per field, when no position in the whole batch equals the padding
index the key-padding mask is absent, not an all-false matrix; otherwise the
mask is the elementwise comparison with the padding index with one extra
column of false prepended, so its leading column is all false and its width
is the token length plus one. -/
theorem fieldPadMask_none_or_prepended (s : TokMat) (padIdx : ℕ) :
    ((∀ b < s.bsz, ∀ t < s.len, s.tok b t ≠ padIdx) → fieldPadMask s padIdx = none) ∧
    ((∃ b < s.bsz, ∃ t < s.len, s.tok b t = padIdx) →
      ∃ mk, fieldPadMask s padIdx = some mk ∧ mk.bsz = s.bsz ∧ mk.len = s.len + 1 ∧
        (∀ b, mk.m b 0 = false) ∧ (∀ b t, mk.m b (t + 1) = (s.tok b t == padIdx))) := by
  constructor
  · exact fieldPadMask_eq_none s padIdx
  · intro hex
    have hany : anyPad s padIdx = true := (anyPad_eq_true_iff s padIdx).mpr hex
    refine ⟨⟨s.bsz, s.len + 1, fun b t => if t = 0 then false else s.tok b (t - 1) == padIdx⟩,
      ?_, rfl, rfl, fun b => rfl, fun b t => rfl⟩
    simp [fieldPadMask, hany]

/-- C4 witness: a two-token batch without padding gets the absent mask, and a
batch whose second token is the pad index gets the prepended mask with the
stated shape and entries. -/
theorem fieldPadMask_none_or_prepended_witness :
    fieldPadMask ⟨1, 2, fun _ _ => 5⟩ 0 = none ∧
    (∃ mk, fieldPadMask ⟨1, 2, fun _ t => if t = 1 then 0 else 5⟩ 0 = some mk ∧
      mk.bsz = 1 ∧ mk.len = 2 + 1 ∧ (∀ b, mk.m b 0 = false) ∧
      (∀ b t, mk.m b (t + 1)
        = (TokMat.tok ⟨1, 2, fun _ t => if t = 1 then 0 else 5⟩ b t == 0))) :=
  ⟨(fieldPadMask_none_or_prepended ⟨1, 2, fun _ _ => 5⟩ 0).1 (by decide),
   (fieldPadMask_none_or_prepended ⟨1, 2, fun _ t => if t = 1 then 0 else 5⟩ 0).2
     ⟨0, by decide, 1, by decide, by decide⟩⟩

/-- Vector dot product over the first n coordinates. -/
def dotQ (f g : ℕ → ℚ) (n : ℕ) : ℚ := ((List.range n).map (fun i => f i * g i)).sum

/-- An affine map applied to a vector: weight matrix row times input over n
coordinates plus bias. -/
def affine (w : ℕ → ℕ → ℚ) (bias : ℕ → ℚ) (n : ℕ) (x : ℕ → ℚ) : ℕ → ℚ :=
  fun o => dotQ (w o) x n + bias o

/-- Parameters of a multi-head attention module: input and output projection
weights and biases, the head count, the dot-product scaling, and the softmax
exponential abstracted as a function parameter because it is transcendental. -/
structure MHAParams where
  dim : ℕ
  heads : ℕ
  wq : ℕ → ℕ → ℚ
  wk : ℕ → ℕ → ℚ
  wv : ℕ → ℕ → ℚ
  wo : ℕ → ℕ → ℚ
  bq : ℕ → ℚ
  bk : ℕ → ℚ
  bv : ℕ → ℚ
  bo : ℕ → ℚ
  scale : ℚ
  softmaxExp : ℚ → ℚ

/-- How a key-padding mask is consulted: an absent mask masks nothing. -/
def maskedAt (mask : Option Mask) (b s : ℕ) : Bool :=
  match mask with
  | none => false
  | some mk => mk.m b s

/-- Modelled from the spec: the MultiheadAttention module is imported from
the surrounding toolkit and is not among the sources under verification. Per
the specification it is multi-head scaled dot-product cross-attention over
time-major [len, batch, dim] tensors with an appended always-available,
never-masked zero attention key and value slot, honoring an absent
key-padding mask by applying no masking; a masked position contributes
softmax weight zero. Attention-weight dropout is zero in the source. -/
def multiheadAttention (p : MHAParams) (query key value : T3)
    (key_padding_mask : Option Mask) : T3 :=
  let hd := p.dim / p.heads
  let src := key.d0
  let qproj : ℕ → ℕ → ℕ → ℚ := fun t b o => affine p.wq p.bq p.dim (query.val t b) o
  let kproj : ℕ → ℕ → ℕ → ℚ := fun s b o =>
    if s = src then 0 else affine p.wk p.bk p.dim (key.val s b) o
  let vproj : ℕ → ℕ → ℕ → ℚ := fun s b o =>
    if s = src then 0 else affine p.wv p.bv p.dim (value.val s b) o
  let score : ℕ → ℕ → ℕ → ℕ → ℚ := fun t b h s =>
    p.scale * dotQ (fun i => qproj t b (h * hd + i)) (fun i => kproj s b (h * hd + i)) hd
  let weight : ℕ → ℕ → ℕ → ℕ → ℚ := fun t b h s =>
    if s < src ∧ maskedAt key_padding_mask b s then 0 else p.softmaxExp (score t b h s)
  let denom : ℕ → ℕ → ℕ → ℚ := fun t b h => ((List.range (src + 1)).map (weight t b h)).sum
  let headOut : ℕ → ℕ → ℕ → ℚ := fun t b o =>
    ((List.range (src + 1)).map
      (fun s => weight t b (o / hd) s / denom t b (o / hd) * vproj s b o)).sum
  ⟨query.d0, query.d1, p.dim, fun t b o => affine p.wo p.bo p.dim (headOut t b) o⟩

/-- Parameters of a layer normalization over the last dimension; the inverse
square root is abstracted as a function parameter because it is
irrational. -/
structure LayerNormParams where
  dim : ℕ
  gamma : ℕ → ℚ
  beta : ℕ → ℚ
  eps : ℚ
  rsqrt : ℚ → ℚ

/-- Modelled from the spec: layer normalization is supplied by the external
framework; it centers and rescales a vector over the last dimension and
applies the learned elementwise affine transform. -/
def layerNorm (p : LayerNormParams) (x : ℕ → ℚ) : ℕ → ℚ :=
  let mean := ((List.range p.dim).map x).sum / (p.dim : ℚ)
  let variance := ((List.range p.dim).map (fun i => (x i - mean) ^ 2)).sum / (p.dim : ℚ)
  fun i => p.gamma i * ((x i - mean) * p.rsqrt (variance + p.eps)) + p.beta i

/-- The rectified linear unit. -/
def relu (x : ℚ) : ℚ := max x 0

/-- Parameters of the feed-forward block of AttentionLayer (model source
lines 38-42): expand from dim to dim times two, nonlinearity, contract
back. -/
structure FFNParams where
  dim : ℕ
  w1 : ℕ → ℕ → ℚ
  b1 : ℕ → ℚ
  w2 : ℕ → ℕ → ℚ
  b2 : ℕ → ℚ

/-- The qh_ffn block of AttentionLayer: Linear(dim, dim * 2), ReLU,
Linear(dim * 2, dim). -/
def qh_ffn (p : FFNParams) (x : ℕ → ℚ) : ℕ → ℚ :=
  let hidden : ℕ → ℚ := fun j => relu (affine p.w1 p.b1 p.dim x j)
  fun i => affine p.w2 p.b2 (2 * p.dim) hidden i

/-- Parameters of one AttentionLayer (model source lines 30-43). -/
structure AttentionLayerParams where
  prem_hyp_attn : MHAParams
  ln_h : LayerNormParams
  ffn : FFNParams

/-- The forward pass of AttentionLayer (model source lines 45-58): attention
of the query over the key and value sequence under the key mask, residual
add of the query, layer-normalize, dropout (the identity in evaluation
mode), then a residual feed-forward block. -/
def attentionLayerForward (p : AttentionLayerParams) (q kv : T3)
    (key_mask : Option Mask) : T3 :=
  let enc0 := multiheadAttention p.prem_hyp_attn q kv kv key_mask
  let enc1 : T3 := ⟨enc0.d0, enc0.d1, enc0.d2, fun t b i => enc0.val t b i + q.val t b i⟩
  let enc2 : T3 := ⟨enc1.d0, enc1.d1, enc1.d2, fun t b i => layerNorm p.ln_h (enc1.val t b) i⟩
  ⟨enc2.d0, enc2.d1, enc2.d2, fun t b i => enc2.val t b i + qh_ffn p.ffn (enc2.val t b) i⟩

/-- Parameters of the shared token embedding. -/
structure EmbeddingParams where
  dim : ℕ
  table : ℕ → ℕ → ℚ
  bos : ℕ → ℚ
  padding_idx : ℕ

/-- Modelled from the spec: the embedding module is supplied externally; per
the specification it embeds each token and carries one auxiliary leading
slot, a class or boundary token, which is the position matching the extra
non-masked column prepended to each key-padding mask. The result is batch
major, batch by length plus one by dim. -/
def embedTokens (p : EmbeddingParams) (s : TokMat) : T3 :=
  ⟨s.bsz, s.len + 1, p.dim, fun b t i => if t = 0 then p.bos i else p.table (s.tok b (t - 1)) i⟩

/-- transpose(0, 1): swap the first two dimensions, here from batch major to
time major. -/
def transpose01 (x : T3) : T3 := ⟨x.d1, x.d0, x.d2, fun a b i => x.val b a i⟩

/-- Parameters of SentencePairClassifier (model source lines 63-78): the
embedding, the learned class queries, two stacked premise-hypothesis
attention layers, the final class-query attention, the last layer norm, and
the projection of each per-label vector to a scalar. -/
structure ClassifierParams where
  num_labels : ℕ
  model_dim : ℕ
  embedding : EmbeddingParams
  class_queries : ℕ → ℕ → ℚ
  pq_layer1 : AttentionLayerParams
  pq_layer2 : AttentionLayerParams
  qh_attn : MHAParams
  ln_q : LayerNormParams
  projW : ℕ → ℚ
  projB : ℚ

/-- The classifier forward pass after the two key-padding masks have been
computed (model source lines 104-128): embed both fields and make them time
major, broadcast the class queries over the batch, run the hypothesis
representation through the two premise attention layers, let the class
queries attend over the result under the hypothesis mask, layer-normalize,
dropout (the identity in evaluation mode), project each per-label vector to
a scalar, squeeze and transpose to batch by labels. -/
def classifierForwardWithMasks (p : ClassifierParams) (sentence1 sentence2 : TokMat)
    (premise_pad_mask hypothesis_pad_mask : Option Mask) : T2 :=
  let embedded_premise := transpose01 (embedTokens p.embedding sentence1)
  let embedded_hypothesis := transpose01 (embedTokens p.embedding sentence2)
  let q : T3 := ⟨p.num_labels, embedded_hypothesis.d1, p.model_dim,
    fun l _ i => p.class_queries l i⟩
  let enc_h1 := attentionLayerForward p.pq_layer1 embedded_hypothesis embedded_premise
    premise_pad_mask
  let enc_h2 := attentionLayerForward p.pq_layer2 enc_h1 embedded_premise premise_pad_mask
  let enc_q := multiheadAttention p.qh_attn q enc_h2 enc_h2 hypothesis_pad_mask
  let x : T3 := ⟨enc_q.d0, enc_q.d1, enc_q.d2, fun l b i => layerNorm p.ln_q (enc_q.val l b) i⟩
  ⟨x.d1, x.d0, fun b l => dotQ p.projW (x.val l b) p.model_dim + p.projB⟩

/-- The full classifier forward pass (model source lines 88-128): compute the
two per-field key-padding masks, then run the attention pipeline. -/
def classifierForward (p : ClassifierParams) (sentence1 sentence2 : TokMat) : T2 :=
  classifierForwardWithMasks p sentence1 sentence2
    (fieldPadMask sentence1 p.embedding.padding_idx)
    (fieldPadMask sentence2 p.embedding.padding_idx)

/-- C3: whatever the two token lengths and however much padding the fields
carry, the classifier forward pass returns a tensor of shape batch size by
num_labels. -/
theorem classifierForward_output_shape (p : ClassifierParams)
    (sentence1 sentence2 : TokMat) (batch : ℕ)
    (h1 : sentence1.bsz = batch) (h2 : sentence2.bsz = batch) :
    (classifierForward p sentence1 sentence2).d0 = batch ∧
    (classifierForward p sentence1 sentence2).d1 = p.num_labels := by
  subst h2
  exact ⟨rfl, rfl⟩

/-- An everywhere-false key-padding mask of the given dimensions. -/
def allFalseMask (bsz len : ℕ) : Mask := ⟨bsz, len, fun _ _ => false⟩

/-- C5: for each field independently, when that field contains no padding
tokens the forward pass computes exactly the same output with the absent
mask the source produces as with an explicit all-false mask of the shape the
padded branch would build: the mask-absence short circuit is a true no-op on
the scores, both for the premise mask consumed by the two attention layers
and for the hypothesis mask consumed by the final class-query attention. -/
theorem classifierForward_mask_absence_noop (p : ClassifierParams)
    (sentence1 sentence2 : TokMat) :
    ((∀ b < sentence1.bsz, ∀ t < sentence1.len,
        sentence1.tok b t ≠ p.embedding.padding_idx) →
      classifierForward p sentence1 sentence2
        = classifierForwardWithMasks p sentence1 sentence2
            (some (allFalseMask sentence1.bsz (sentence1.len + 1)))
            (fieldPadMask sentence2 p.embedding.padding_idx)) ∧
    ((∀ b < sentence2.bsz, ∀ t < sentence2.len,
        sentence2.tok b t ≠ p.embedding.padding_idx) →
      classifierForward p sentence1 sentence2
        = classifierForwardWithMasks p sentence1 sentence2
            (fieldPadMask sentence1 p.embedding.padding_idx)
            (some (allFalseMask sentence2.bsz (sentence2.len + 1)))) := by
  constructor
  · intro hnp
    show classifierForwardWithMasks p sentence1 sentence2
        (fieldPadMask sentence1 p.embedding.padding_idx)
        (fieldPadMask sentence2 p.embedding.padding_idx) = _
    rw [fieldPadMask_eq_none sentence1 p.embedding.padding_idx hnp]
    rfl
  · intro hnh
    show classifierForwardWithMasks p sentence1 sentence2
        (fieldPadMask sentence1 p.embedding.padding_idx)
        (fieldPadMask sentence2 p.embedding.padding_idx) = _
    rw [fieldPadMask_eq_none sentence2 p.embedding.padding_idx hnh]
    rfl

/-- Concrete attention parameters for witness instantiations. -/
def testMHA : MHAParams :=
  ⟨4, 16, fun _ _ => 1, fun _ _ => 1, fun _ _ => 1, fun _ _ => 1,
   fun _ => 0, fun _ => 0, fun _ => 0, fun _ => 0, 1, fun _ => 1⟩

/-- Concrete layer-norm parameters for witness instantiations. -/
def testLN : LayerNormParams := ⟨4, fun _ => 1, fun _ => 0, 1, fun _ => 1⟩

/-- Concrete feed-forward parameters for witness instantiations. -/
def testFFN : FFNParams := ⟨4, fun _ _ => 1, fun _ => 0, fun _ _ => 1, fun _ => 0⟩

/-- A concrete attention layer for witness instantiations. -/
def testLayer : AttentionLayerParams := ⟨testMHA, testLN, testFFN⟩

/-- A concrete embedding with padding index 0 for witness instantiations. -/
def testEmb : EmbeddingParams := ⟨4, fun _ _ => 1, fun _ => 0, 0⟩

/-- A concrete classifier with three labels for witness instantiations. -/
def testClassifier : ClassifierParams :=
  ⟨3, 4, testEmb, fun _ _ => 1, testLayer, testLayer, testMHA, testLN, fun _ => 1, 0⟩

/-- A concrete premise batch of two rows of two tokens, none padding. -/
def testSent1 : TokMat := ⟨2, 2, fun _ _ => 5⟩

/-- A concrete hypothesis batch of two rows of three tokens. -/
def testSent2 : TokMat := ⟨2, 3, fun _ _ => 7⟩

/-- C3 witness: on a concrete batch of two examples the classifier output
has shape two by three. -/
theorem classifierForward_output_shape_witness :
    testSent1.bsz = 2 ∧ testSent2.bsz = 2 ∧
    (classifierForward testClassifier testSent1 testSent2).d0 = 2 ∧
    (classifierForward testClassifier testSent1 testSent2).d1 = testClassifier.num_labels :=
  ⟨rfl, rfl, classifierForward_output_shape testClassifier testSent1 testSent2 2 rfl rfl⟩

/-- C5 witness: neither concrete batch carries padding, and the forward pass
equals the run with the explicit all-false premise mask as well as the run
with the explicit all-false hypothesis mask. -/
theorem classifierForward_mask_absence_noop_witness :
    (classifierForward testClassifier testSent1 testSent2
      = classifierForwardWithMasks testClassifier testSent1 testSent2
          (some (allFalseMask testSent1.bsz (testSent1.len + 1)))
          (fieldPadMask testSent2 testClassifier.embedding.padding_idx)) ∧
    (classifierForward testClassifier testSent1 testSent2
      = classifierForwardWithMasks testClassifier testSent1 testSent2
          (fieldPadMask testSent1 testClassifier.embedding.padding_idx)
          (some (allFalseMask testSent2.bsz (testSent2.len + 1)))) :=
  ⟨(classifierForward_mask_absence_noop testClassifier testSent1 testSent2).1 (by decide),
   (classifierForward_mask_absence_noop testClassifier testSent1 testSent2).2 (by decide)⟩

end SentencePairClassification
